import Mathlib

/-!
Shallow embedding of the remove-background-web demo server
(Express handlers in the single source file) and of the client-side
background-removal routine, for checking the specification claims.

The external capabilities (segmentation model, editly renderer, S3
transport) are black boxes per the spec scope; they enter the model as
injected functions whose outcomes we quantify over. Everything that is
logic of this repository (control flow of the handlers, key construction,
path resolution, temp-file lifecycle, response shapes) is translated
directly from the source.
-/

namespace RBW

/-- Byte strings, modeled as lists of naturals. -/
abbrev Bytes := List Nat

/-- A presigned URL as produced by getSignedUrl: it is derived purely from
the object key and the expiry in seconds passed in the options. -/
structure SignedUrl where
  key : String
  expiresIn : Nat
  deriving DecidableEq, Repr

/-- Node path.join for the two-argument uses in this file. -/
def pathJoin (a b : String) : String := a ++ "/" ++ b

/-- Whether the first character of the string is a slash. -/
def startsWithSlash (p : String) : Bool :=
  match p.data with
  | [] => false
  | c :: _ => c == '/'

/-- POSIX path.isAbsolute: the path starts with a slash. -/
def isAbsolute (p : String) : Bool := startsWithSlash p

/-- The ad-hoc leading-slash strip in the create-video imagePath branch:
imagePath.startsWith slash ? imagePath.substring(1) : imagePath. -/
def stripLeadingSlash (p : String) : String :=
  if startsWithSlash p then ⟨p.data.drop 1⟩ else p

/-- Source-image path normalization in the create-video handler: an
absolute imagePath is used as-is; otherwise any leading slash is stripped
and the rest is joined to the install root with path.join. -/
def resolveImagePath (dirname p : String) : String :=
  if isAbsolute p then p else pathJoin dirname (stripLeadingSlash p)

/-- Node path.basename: the last slash-separated component. -/
def basename (p : String) : String :=
  (p.splitOn "/").getLastD p

/-- Multer diskStorage filename callback: uuidv4() + path.extname(file.originalname). -/
def multerFilename (uuid ext : String) : String := uuid ++ ext

/-- Object-store key of an uploaded image in the upload handler:
uploads/ followed by the basename of the multer-assigned local path,
which is the multer filename uuid plus extension. -/
def uploadImageKey (uuid ext : String) : String :=
  "uploads/" ++ multerFilename uuid ext

/-- Local filename chosen by the upload-url handler: url-image-uuid.jpg. -/
def urlFilename (uuid : String) : String := "url-image-" ++ uuid ++ ".jpg"

/-- Object-store key of a URL-fetched image in the upload-url handler. -/
def urlImageKey (uuid : String) : String := "uploads/" ++ urlFilename uuid

/-- Object-store key of a rendered video in the create-video handler:
videos/hosamani-family-video-videoId.mp4. -/
def s3VideoKeyOf (videoId : String) : String :=
  "videos/hosamani-family-video-" ++ videoId ++ ".mp4"

/-- The three kinds of objects the server stores, each keyed by a freshly
generated token (a uuidv4). Uploaded images additionally carry the
original extension. -/
inductive ObjectKind where
  | uploadedImage (ext : String)
  | urlImage
  | renderedVideo
  deriving DecidableEq, Repr

/-- The object-store key each kind of stored object gets for a given
generated token, exactly as the three handlers build them. -/
def storedKey : ObjectKind → String → String
  | .uploadedImage ext, tok => uploadImageKey tok ext
  | .urlImage, tok => urlImageKey tok
  | .renderedVideo, tok => s3VideoKeyOf tok

/-- Characters that can occur in a uuidv4 string: lowercase hex digits
and the hyphen. -/
def uuidCharOk (c : Char) : Bool :=
  c.isDigit || (decide ('a' ≤ c) && decide (c ≤ 'f')) || c == '-'

/-- Shape of a uuidv4 token: 36 characters, all hex digits or hyphens. -/
def isUuidLike (s : String) : Bool :=
  s.data.length == 36 && s.data.all uuidCharOk

/-- The recognized environment options, each possibly absent. -/
structure Envr where
  PORT : Option String
  AWS_REGION : Option String
  AWS_ACCESS_KEY_ID : Option String
  AWS_SECRET_ACCESS_KEY : Option String
  S3_BUCKET_NAME : Option String
  deriving DecidableEq, Repr

/-- The configuration the server actually runs with after startup. -/
structure ServerConfig where
  port : String
  region : String
  accessKeyId : Option String
  secretAccessKey : Option String
  bucketName : String
  deriving DecidableEq, Repr

/-- Startup configuration logic of the server, translated from the top of
the server file: port = process.env.PORT or 3000, the S3 client is built
with region process.env.AWS_REGION or us-east-1 and the raw (possibly
undefined) credential variables, and BUCKET_NAME = process.env.S3_BUCKET_NAME
or your-bucket-name. No variable is validated and startup never throws on a
missing variable, so the result is always ok. -/
def startServer (e : Envr) : Except String ServerConfig :=
  .ok { port := e.PORT.getD "3000"
        region := e.AWS_REGION.getD "us-east-1"
        accessKeyId := e.AWS_ACCESS_KEY_ID
        secretAccessKey := e.AWS_SECRET_ACCESS_KEY
        bucketName := e.S3_BUCKET_NAME.getD "your-bucket-name" }

/-- The environment with every recognized variable absent. -/
def emptyEnvr : Envr :=
  { PORT := none, AWS_REGION := none, AWS_ACCESS_KEY_ID := none
    AWS_SECRET_ACCESS_KEY := none, S3_BUCKET_NAME := none }

/-- Scratch paths of the create-video handler: tempDir is
path.join(__dirname, temp) and the temp image is temp-image-videoId.png. -/
def tempImagePathOf (dirname videoId : String) : String :=
  pathJoin (pathJoin dirname "temp") ("temp-image-" ++ videoId ++ ".png")

/-- Scratch output path of the create-video handler: videoId.mp4 in tempDir. -/
def videoPathOf (dirname videoId : String) : String :=
  pathJoin (pathJoin dirname "temp") (videoId ++ ".mp4")

/-- The full options object the create-video handler passes to editly,
flattened: one audio track, one clip with a background video layer and an
overlay image layer. -/
structure EditlyConfig where
  outPath : String
  width : Nat
  height : Nat
  fps : Nat
  audioPath : String
  audioVolume : Nat
  clipDuration : Nat
  videoLayerPath : String
  videoLayerPosition : String
  videoLayerResize : String
  imageLayerPath : String
  imageLayerPosX : Rat
  imageLayerPosY : Rat
  imageLayerResize : String
  imageLayerStart : Nat
  imageLayerWidth : String
  imageLayerHeight : String
  deriving DecidableEq, Repr

/-- The editly options the create-video handler builds, translated field by
field from the source. They depend only on the install root and the
generated videoId, never on the request body. -/
def editlyConfigOf (dirname videoId : String) : EditlyConfig :=
  { outPath := videoPathOf dirname videoId
    width := 480
    height := 854
    fps := 30
    audioPath := pathJoin dirname "assets/music.m4a"
    audioVolume := 1
    clipDuration := 9
    videoLayerPath := pathJoin dirname "assets/video.mp4"
    videoLayerPosition := "center"
    videoLayerResize := "cover"
    imageLayerPath := tempImagePathOf dirname videoId
    imageLayerPosX := (0.5 : Rat)
    imageLayerPosY := (0.45 : Rat)
    imageLayerResize := "contain"
    imageLayerStart := 3
    imageLayerWidth := "10%"
    imageLayerHeight := "10%" }

/-- Body of a POST create-video request. -/
structure CreateVideoReq where
  imagePath : Option String
  s3Key : Option String
  text : Option String
  deriving DecidableEq, Repr

/-- JSON body of the create-video response: either the success shape
with videoUrl and videoId, or the failure shape with success false and an
error message. -/
inductive CvBody where
  | ok (videoUrl : SignedUrl) (videoId : String)
  | err (msg : String)
  deriving DecidableEq, Repr

/-- Observable outcome of one create-video call: HTTP status and body,
plus the effect trace needed by the claims — which temp files remain on
disk when the call completes, every local filesystem write performed,
the object-store keys written and fetched, and the local source files
accessed, and the editly options if the renderer was invoked. -/
structure CreateVideoRes where
  status : Nat
  body : CvBody
  tempLeft : List String
  localWrites : List String
  storePuts : List String
  storeGets : List String
  localReads : List String
  renderCfg : Option EditlyConfig
  deriving DecidableEq, Repr

/-- The injected external world of the create-video handler: S3 get and
put outcomes, the editly render outcome (ok carries the produced video
bytes), whether unlinkSync succeeds on a given path, and the pre-existing
local filesystem for the imagePath branch. -/
structure CvEnv where
  s3Get : String → Except String Bytes
  s3Put : String → Bytes → Except String Unit
  render : EditlyConfig → Except String Bytes
  unlinkOk : String → Bool
  localFile : String → Option Bytes

/-- The tail of the create-video handler after the source image has been
materialized to the temp image path: run editly, upload the result,
presign with expiresIn 3600, then try to delete the video file and the
temp image (in that order, inside one try whose catch only logs), and
answer 200 with the success body. A render failure or an upload failure
throws to the handler catch, which answers 500 without reaching the
cleanup block. -/
def afterSource (env : CvEnv) (dirname videoId : String)
    (gets : List String) (reads : List String) : CreateVideoRes :=
  match env.render (editlyConfigOf dirname videoId) with
  | .error e =>
    { status := 500, body := .err e
      tempLeft := [tempImagePathOf dirname videoId]
      localWrites := [tempImagePathOf dirname videoId]
      storePuts := [], storeGets := gets, localReads := reads
      renderCfg := some (editlyConfigOf dirname videoId) }
  | .ok vidBytes =>
    match env.s3Put (s3VideoKeyOf videoId) vidBytes with
    | .error e =>
      { status := 500, body := .err ("Failed to upload video to S3: " ++ e)
        tempLeft := [tempImagePathOf dirname videoId, videoPathOf dirname videoId]
        localWrites := [tempImagePathOf dirname videoId, videoPathOf dirname videoId]
        storePuts := [], storeGets := gets, localReads := reads
        renderCfg := some (editlyConfigOf dirname videoId) }
    | .ok _ =>
      { status := 200
        body := .ok { key := s3VideoKeyOf videoId, expiresIn := 3600 } videoId
        tempLeft :=
          if env.unlinkOk (videoPathOf dirname videoId) then
            if env.unlinkOk (tempImagePathOf dirname videoId) then []
            else [tempImagePathOf dirname videoId]
          else [videoPathOf dirname videoId, tempImagePathOf dirname videoId]
        localWrites := [tempImagePathOf dirname videoId, videoPathOf dirname videoId]
        storePuts := [s3VideoKeyOf videoId], storeGets := gets
        localReads := reads, renderCfg := some (editlyConfigOf dirname videoId) }

/-- The POST create-video handler, translated from the source. The
generated uuidv4 is passed in as videoId. Source resolution: if s3Key is
present the object is fetched from the store and written to the temp
image path (a fetch failure rethrows with the Failed-to-fetch message);
otherwise, if imagePath is present, it is normalized and the local file
is copied to the temp image path (a missing file rethrows with the
Failed-to-access message); otherwise the handler throws the
no-image-source error. Every throw is caught at the handler boundary and
answered as status 500 with the failure body. -/
def createVideoHandler (env : CvEnv) (dirname videoId : String)
    (req : CreateVideoReq) : CreateVideoRes :=
  match req.s3Key with
  | some key =>
    match env.s3Get key with
    | .error e =>
      { status := 500, body := .err ("Failed to fetch image from S3: " ++ e)
        tempLeft := [], localWrites := [], storePuts := []
        storeGets := [key], localReads := [], renderCfg := none }
    | .ok _ => afterSource env dirname videoId [key] []
  | none =>
    match req.imagePath with
    | some p =>
      match env.localFile (resolveImagePath dirname p) with
      | none =>
        { status := 500
          body := .err ("Failed to access local image: Local image file not found: "
            ++ resolveImagePath dirname p)
          tempLeft := [], localWrites := [], storePuts := []
          storeGets := [], localReads := [resolveImagePath dirname p], renderCfg := none }
      | some _ => afterSource env dirname videoId [] [resolveImagePath dirname p]
    | none =>
      { status := 500
        body := .err "No image source provided (neither S3 key nor local path)"
        tempLeft := [], localWrites := [], storePuts := []
        storeGets := [], localReads := [], renderCfg := none }

/-- Convenience builder for a create-video environment from fixed
outcomes for get, render, put and a fixed unlink success flag. -/
def mkCvEnv (g : Except String Bytes) (r : Except String Bytes)
    (p : Except String Unit) (u : Bool) : CvEnv :=
  { s3Get := fun _ => g, s3Put := fun _ _ => p, render := fun _ => r
    unlinkOk := fun _ => u, localFile := fun _ => none }

/-- The file record multer attaches to the request for field image;
absent when the request carried no file. -/
structure MulterFile where
  path : String
  deriving DecidableEq, Repr

/-- JSON body of the upload response. -/
inductive UpBody where
  | ok (imagePath s3Key : String) (imageUrl : SignedUrl)
  | err (msg : String)
  deriving DecidableEq, Repr

/-- Observable outcome of one upload call: status, body, and the
object-store keys written. -/
structure UploadRes where
  status : Nat
  body : UpBody
  storePuts : List String
  deriving DecidableEq, Repr

/-- Injected world of the upload handler. -/
structure UpEnv where
  localFile : String → Option Bytes
  s3Put : String → Bytes → Except String Unit

/-- The POST upload handler, translated from the source. When no file was
uploaded, req.file is undefined and reading req.file.path throws a
TypeError inside the try block; the catch answers 500 with the failure
body, so the server does not crash and nothing is stored. Otherwise the
file is read, put under uploads/basename, presigned for 3600 seconds, and
the success body is returned. -/
def uploadHandler (env : UpEnv) (file : Option MulterFile) : UploadRes :=
  match file with
  | none =>
    { status := 500
      body := .err "Cannot read properties of undefined (reading path)"
      storePuts := [] }
  | some f =>
    let imagePath := f.path
    match env.localFile imagePath with
    | none =>
      { status := 500, body := .err ("File not found: " ++ imagePath)
        storePuts := [] }
    | some content =>
      let key := "uploads/" ++ basename imagePath
      match env.s3Put key content with
      | .error e =>
        { status := 500, body := .err e, storePuts := [] }
      | .ok _ =>
        { status := 200
          body := .ok imagePath key { key := key, expiresIn := 3600 }
          storePuts := [key] }

/-- An image as the client-side code sees it: dimensions, channel count
and interleaved pixel data. -/
structure RawImage where
  width : Nat
  height : Nat
  channels : Nat
  data : List Nat
  deriving DecidableEq, Repr

/-- Channel c of pixel p (row-major index) of an image. -/
def RawImage.pix (img : RawImage) (p c : Nat) : Nat :=
  img.data.getD (p * img.channels + c) 0

/-- Nearest-neighbor resize to the given width and height, keeping the
channel count; models RawImage.resize as used to bring the predicted mask
back to the original resolution. -/
def RawImage.resize (img : RawImage) (w h : Nat) : RawImage :=
  { width := w, height := h, channels := img.channels
    data := (List.range (w * h * img.channels)).map fun k =>
      let c := k % img.channels
      let p := k / img.channels
      let x := p % w
      let y := p / w
      let sx := if w = 0 then 0 else x * img.width / w
      let sy := if h = 0 then 0 else y * img.height / h
      img.pix (sy * img.width + sx) c }

/-- RawImage.putAlpha: composite a single-channel mask as the alpha
channel of the image, producing a four-channel image of the same
dimensions. -/
def RawImage.putAlpha (img mask : RawImage) : RawImage :=
  { width := img.width, height := img.height, channels := 4
    data := (List.range (img.width * img.height * 4)).map fun k =>
      let p := k / 4
      let c := k % 4
      if c == 3 then mask.pix p 0 else img.pix p c }

/-- Whether an image carries an alpha channel. -/
def RawImage.hasAlpha (img : RawImage) : Bool := img.channels == 4

/-- The client-side background-removal routine, translated from
processImageLocally: the external segmentation capability (processor plus
model plus tensor-to-image conversion) is a black box producing a mask
image; the code of this repository resizes that mask back to the original
width and height and composites it as the alpha channel, then draws the
result on a canvas of the original dimensions. -/
def processImageLocally (capability : RawImage → RawImage)
    (img : RawImage) : RawImage :=
  img.putAlpha ((capability img).resize img.width img.height)

/-- A fixed environment in which every external call succeeds trivially. -/
def trivialCvEnv : CvEnv := mkCvEnv (.ok []) (.ok []) (.ok ()) true

end RBW

/-- C2: a create-video request that supplies neither an s3Key nor an
imagePath is answered with the no-image-source error as status 500 and
the failure body, before any file I/O: no temp file is created, no local
file is read or written, and no object-store read or write happens. -/
theorem RBW.createVideo_missingSource (env : RBW.CvEnv) (dn vid : String)
    (t : Option String) :
    RBW.createVideoHandler env dn vid { imagePath := none, s3Key := none, text := t } =
      { status := 500
        body := .err "No image source provided (neither S3 key nor local path)"
        tempLeft := [], localWrites := [], storePuts := []
        storeGets := [], localReads := [], renderCfg := none } := rfl

/-- C7 counterexample: with every recognized environment variable absent,
startup still succeeds, producing the default configuration (region
us-east-1, bucket your-bucket-name, absent credentials) instead of
failing fast with a configuration error. -/
theorem RBW.startServer_missingEnv_counterexample :
    RBW.startServer RBW.emptyEnvr =
      Except.ok { port := "3000", region := "us-east-1", accessKeyId := none
                  secretAccessKey := none, bucketName := "your-bucket-name" } := rfl

/-- C7 amended: the server never fails at startup on missing
configuration; for every environment, startup succeeds with the port,
region and bucket name defaulted when absent and the credential
variables taken as-is (possibly absent), so misconfiguration can only
surface later inside request handlers. -/
theorem RBW.startServer_never_fails (e : RBW.Envr) :
    RBW.startServer e =
      Except.ok { port := e.PORT.getD "3000"
                  region := e.AWS_REGION.getD "us-east-1"
                  accessKeyId := e.AWS_ACCESS_KEY_ID
                  secretAccessKey := e.AWS_SECRET_ACCESS_KEY
                  bucketName := e.S3_BUCKET_NAME.getD "your-bucket-name" } ∧
    ∀ (e2 : RBW.Envr), ∃ c, RBW.startServer e2 = Except.ok c :=
  ⟨rfl, fun e2 =>
    ⟨{ port := e2.PORT.getD "3000", region := e2.AWS_REGION.getD "us-east-1"
       accessKeyId := e2.AWS_ACCESS_KEY_ID
       secretAccessKey := e2.AWS_SECRET_ACCESS_KEY
       bucketName := e2.S3_BUCKET_NAME.getD "your-bucket-name" }, rfl⟩⟩

/-- C10: a POST upload request with no file in the image field does not
crash the server: the TypeError from reading the path of the missing
file is raised inside the try block and caught, nothing is written to
the object store, and the response is status 500 with the failure body. -/
theorem RBW.upload_noFile (env : RBW.UpEnv) :
    RBW.uploadHandler env none =
      { status := 500
        body := .err "Cannot read properties of undefined (reading path)"
        storePuts := [] } := rfl

/-- C8: for every input image and every black-box segmentation
capability, the background-removal routine returns an image of exactly
the input width and height that carries an alpha channel (four channels,
one alpha value per pixel), whether or not the input had one. -/
theorem RBW.removeBackground_dims_and_alpha (capability : RBW.RawImage → RBW.RawImage)
    (img : RBW.RawImage) :
    (RBW.processImageLocally capability img).width = img.width ∧
    (RBW.processImageLocally capability img).height = img.height ∧
    (RBW.processImageLocally capability img).hasAlpha = true ∧
    (RBW.processImageLocally capability img).data.length =
      img.width * img.height * 4 :=
  ⟨rfl, rfl, rfl, by
    simp [RBW.processImageLocally, RBW.RawImage.putAlpha]⟩

/-- C9: when the render and the upload succeed but deleting the
temporary files fails (unlink failing on every path), the create-video
response is unchanged: still status 200 with the success body carrying
the one-hour signed URL and the videoId, identical to the response when
cleanup succeeds; only the leftover temp files differ. -/
theorem RBW.cleanupFailure_not_escalated (gf : String → RBW.Bytes)
    (rf : RBW.EditlyConfig → RBW.Bytes) (u : String → Bool)
    (lf : String → Option RBW.Bytes) (dn vid k : String) (ip t : Option String) :
    (RBW.createVideoHandler
        { s3Get := fun s => .ok (gf s), s3Put := fun _ _ => .ok ()
          render := fun c => .ok (rf c), unlinkOk := u, localFile := lf }
        dn vid { imagePath := ip, s3Key := some k, text := t }).status = 200 ∧
    (RBW.createVideoHandler
        { s3Get := fun s => .ok (gf s), s3Put := fun _ _ => .ok ()
          render := fun c => .ok (rf c), unlinkOk := u, localFile := lf }
        dn vid { imagePath := ip, s3Key := some k, text := t }).body =
      .ok { key := RBW.s3VideoKeyOf vid, expiresIn := 3600 } vid ∧
    (RBW.createVideoHandler
        { s3Get := fun s => .ok (gf s), s3Put := fun _ _ => .ok ()
          render := fun c => .ok (rf c), unlinkOk := fun _ => false, localFile := lf }
        dn vid { imagePath := ip, s3Key := some k, text := t }).body =
      (RBW.createVideoHandler
        { s3Get := fun s => .ok (gf s), s3Put := fun _ _ => .ok ()
          render := fun c => .ok (rf c), unlinkOk := fun _ => true, localFile := lf }
        dn vid { imagePath := ip, s3Key := some k, text := t }).body ∧
    (RBW.createVideoHandler
        { s3Get := fun s => .ok (gf s), s3Put := fun _ _ => .ok ()
          render := fun c => .ok (rf c), unlinkOk := fun _ => false, localFile := lf }
        dn vid { imagePath := ip, s3Key := some k, text := t }).status =
      (RBW.createVideoHandler
        { s3Get := fun s => .ok (gf s), s3Put := fun _ _ => .ok ()
          render := fun c => .ok (rf c), unlinkOk := fun _ => true, localFile := lf }
        dn vid { imagePath := ip, s3Key := some k, text := t }).status :=
  ⟨rfl, rfl, rfl, rfl⟩

/-- C1 counterexample: a create-video call whose upload to the object
store fails exits with the temp image and the rendered video still on
disk, so the temp directory is not free of files for that call. -/
theorem RBW.tempCleanup_counterexample :
    (RBW.createVideoHandler
        (RBW.mkCvEnv (.ok []) (.ok []) (.error "upload failed") true)
        "/app" "vid0"
        { imagePath := none, s3Key := some "k", text := none }).tempLeft ≠ [] :=
  List.cons_ne_nil _ _

/-- C1 amended: the temporary files are removed only on the success exit
path. When fetch, render, upload and both deletions succeed, no temp
file for the generated id remains; but on a render failure the temp
image is left on disk, and on an upload failure both the temp image and
the rendered video file are left on disk, because those failures jump to
the handler catch without reaching the cleanup block. -/
theorem RBW.tempCleanup_success_only (g b : RBW.Bytes) (e1 e2 : String)
    (dn vid k : String) (t : Option String) :
    (RBW.createVideoHandler (RBW.mkCvEnv (.ok g) (.ok b) (.ok ()) true)
        dn vid { imagePath := none, s3Key := some k, text := t }).tempLeft = [] ∧
    (RBW.createVideoHandler (RBW.mkCvEnv (.ok g) (.error e1) (.ok ()) true)
        dn vid { imagePath := none, s3Key := some k, text := t }).tempLeft =
      [RBW.tempImagePathOf dn vid] ∧
    (RBW.createVideoHandler (RBW.mkCvEnv (.ok g) (.ok b) (.error e2) true)
        dn vid { imagePath := none, s3Key := some k, text := t }).tempLeft =
      [RBW.tempImagePathOf dn vid, RBW.videoPathOf dn vid] :=
  ⟨rfl, rfl, rfl⟩

/-- Helper: whenever the renderer is reached, the options passed to it
are exactly editlyConfigOf for the install root and generated id. -/
theorem RBW.afterSource_renderCfg (env : RBW.CvEnv) (dn vid : String)
    (g r : List String) :
    (RBW.afterSource env dn vid g r).renderCfg =
      some (RBW.editlyConfigOf dn vid) := by
  cases hr : env.render (RBW.editlyConfigOf dn vid) with
  | error e => simp [RBW.afterSource, hr]
  | ok b =>
    cases hp : env.s3Put (RBW.s3VideoKeyOf vid) b with
    | error e => simp [RBW.afterSource, hr, hp]
    | ok u => simp [RBW.afterSource, hr, hp]

/-- Helper: afterSource answers either 200 with the success body
carrying the 3600-second signed URL for the video key, or 500 with a
failure body. -/
theorem RBW.afterSource_response (env : RBW.CvEnv) (dn vid : String)
    (g r : List String) :
    ((RBW.afterSource env dn vid g r).status = 200 ∧
      (RBW.afterSource env dn vid g r).body =
        .ok { key := RBW.s3VideoKeyOf vid, expiresIn := 3600 } vid) ∨
    ((RBW.afterSource env dn vid g r).status = 500 ∧
      ∃ e, (RBW.afterSource env dn vid g r).body = .err e) := by
  cases hr : env.render (RBW.editlyConfigOf dn vid) with
  | error e => exact .inr (by simp [RBW.afterSource, hr])
  | ok b =>
    cases hp : env.s3Put (RBW.s3VideoKeyOf vid) b with
    | error e => exact .inr (by simp [RBW.afterSource, hr, hp])
    | ok u => exact .inl (by simp [RBW.afterSource, hr, hp])

/-- Helper: afterSource reports exactly the store reads and local reads
it was handed from the source-resolution phase. -/
theorem RBW.afterSource_trace (env : RBW.CvEnv) (dn vid : String)
    (g r : List String) :
    (RBW.afterSource env dn vid g r).storeGets = g ∧
    (RBW.afterSource env dn vid g r).localReads = r := by
  cases hr : env.render (RBW.editlyConfigOf dn vid) with
  | error e => simp [RBW.afterSource, hr]
  | ok b =>
    cases hp : env.s3Put (RBW.s3VideoKeyOf vid) b with
    | error e => simp [RBW.afterSource, hr, hp]
    | ok u => simp [RBW.afterSource, hr, hp]

/-- Helper: the editly options of every create-video call are either
absent (renderer never reached) or exactly editlyConfigOf, for every
request body. -/
theorem RBW.handler_renderCfg (env : RBW.CvEnv) (dn vid : String)
    (req : RBW.CreateVideoReq) :
    (RBW.createVideoHandler env dn vid req).renderCfg = none ∨
    (RBW.createVideoHandler env dn vid req).renderCfg =
      some (RBW.editlyConfigOf dn vid) := by
  obtain ⟨ip, sk, tx⟩ := req
  cases sk with
  | some key =>
    cases hg : env.s3Get key with
    | error e => exact .inl (by simp [RBW.createVideoHandler, hg])
    | ok b =>
      exact .inr (by
        simp only [RBW.createVideoHandler, hg]
        exact RBW.afterSource_renderCfg env dn vid [key] [])
  | none =>
    cases ip with
    | some p =>
      cases hl : env.localFile (RBW.resolveImagePath dn p) with
      | none => exact .inl (by simp [RBW.createVideoHandler, hl])
      | some c =>
        exact .inr (by
          simp only [RBW.createVideoHandler, hl]
          exact RBW.afterSource_renderCfg env dn vid [] [RBW.resolveImagePath dn p])
    | none => exact .inl rfl

/-- C5: every video produced by the composition stage uses the fixed
configuration — output 480 by 854 at 30 fps, a single clip of duration 9
with a cover-fit background video layer and an overlay image layer
starting at offset 3 at normalized position x one half, y nine
twentieths, sized 10 percent by 10 percent — and the options handed to
the renderer never depend on any field of the request, text included. -/
theorem RBW.editly_fixed_configuration (env : RBW.CvEnv) (dn vid : String)
    (req : RBW.CreateVideoReq) :
    ((RBW.createVideoHandler env dn vid req).renderCfg = none ∨
      (RBW.createVideoHandler env dn vid req).renderCfg =
        some (RBW.editlyConfigOf dn vid)) ∧
    (RBW.editlyConfigOf dn vid).width = 480 ∧
    (RBW.editlyConfigOf dn vid).height = 854 ∧
    (RBW.editlyConfigOf dn vid).fps = 30 ∧
    (RBW.editlyConfigOf dn vid).clipDuration = 9 ∧
    (RBW.editlyConfigOf dn vid).videoLayerResize = "cover" ∧
    (RBW.editlyConfigOf dn vid).imageLayerStart = 3 ∧
    (RBW.editlyConfigOf dn vid).imageLayerPosX = (0.5 : Rat) ∧
    (RBW.editlyConfigOf dn vid).imageLayerPosY = (0.45 : Rat) ∧
    (RBW.editlyConfigOf dn vid).imageLayerWidth = "10%" ∧
    (RBW.editlyConfigOf dn vid).imageLayerHeight = "10%" :=
  ⟨RBW.handler_renderCfg env dn vid req,
    rfl, rfl, rfl, rfl, rfl, rfl, rfl, rfl, rfl, rfl⟩

/-- C6: every create-video call answers either 200 with the success body
whose videoUrl is the signed URL for the uploaded video key with expiry
exactly 3600 seconds and whose videoId is the generated id, or 500 with
the failure body carrying an error message. -/
theorem RBW.createVideo_response_contract (env : RBW.CvEnv) (dn vid : String)
    (req : RBW.CreateVideoReq) :
    ((RBW.createVideoHandler env dn vid req).status = 200 ∧
      (RBW.createVideoHandler env dn vid req).body =
        .ok { key := RBW.s3VideoKeyOf vid, expiresIn := 3600 } vid) ∨
    ((RBW.createVideoHandler env dn vid req).status = 500 ∧
      ∃ e, (RBW.createVideoHandler env dn vid req).body = .err e) := by
  obtain ⟨ip, sk, tx⟩ := req
  cases sk with
  | some key =>
    cases hg : env.s3Get key with
    | error e => exact .inr (by simp [RBW.createVideoHandler, hg])
    | ok b =>
      have h := RBW.afterSource_response env dn vid [key] []
      simpa only [RBW.createVideoHandler, hg] using h
  | none =>
    cases ip with
    | some p =>
      cases hl : env.localFile (RBW.resolveImagePath dn p) with
      | none => exact .inr (by simp [RBW.createVideoHandler, hl])
      | some c =>
        have h := RBW.afterSource_response env dn vid [] [RBW.resolveImagePath dn p]
        simpa only [RBW.createVideoHandler, hl] using h
    | none => exact .inr ⟨rfl, _, rfl⟩

/-- C3: the source image is resolved by storage key preferentially — with
an s3Key present the handler behaves identically whatever imagePath is,
and fetches exactly that key from the store; with no s3Key and an
imagePath present it reads exactly the normalized local path and touches
the store not at all; and the normalization uses an absolute path as-is
while a relative path has a leading slash stripped and is joined to the
install root. -/
theorem RBW.source_resolution (env : RBW.CvEnv) (dn vid k p : String)
    (ip t : Option String) :
    RBW.createVideoHandler env dn vid { imagePath := ip, s3Key := some k, text := t } =
      RBW.createVideoHandler env dn vid { imagePath := none, s3Key := some k, text := t } ∧
    (RBW.createVideoHandler env dn vid
        { imagePath := ip, s3Key := some k, text := t }).storeGets = [k] ∧
    (RBW.createVideoHandler env dn vid
        { imagePath := some p, s3Key := none, text := t }).localReads =
      [RBW.resolveImagePath dn p] ∧
    (RBW.createVideoHandler env dn vid
        { imagePath := some p, s3Key := none, text := t }).storeGets = [] ∧
    (RBW.isAbsolute p = true → RBW.resolveImagePath dn p = p) ∧
    (RBW.isAbsolute p = false →
      RBW.resolveImagePath dn p = RBW.pathJoin dn (RBW.stripLeadingSlash p)) := by
  refine ⟨rfl, ?_, ?_, ?_, ?_, ?_⟩
  · cases hg : env.s3Get k with
    | error e => simp [RBW.createVideoHandler, hg]
    | ok b =>
      simp only [RBW.createVideoHandler, hg]
      exact (RBW.afterSource_trace env dn vid [k] []).1
  · cases hl : env.localFile (RBW.resolveImagePath dn p) with
    | none => simp [RBW.createVideoHandler, hl]
    | some c =>
      simp only [RBW.createVideoHandler, hl]
      exact (RBW.afterSource_trace env dn vid [] [RBW.resolveImagePath dn p]).2
  · cases hl : env.localFile (RBW.resolveImagePath dn p) with
    | none => simp [RBW.createVideoHandler, hl]
    | some c =>
      simp only [RBW.createVideoHandler, hl]
      exact (RBW.afterSource_trace env dn vid [] [RBW.resolveImagePath dn p]).1
  · intro h
    simp [RBW.resolveImagePath, h]
  · intro h
    simp [RBW.resolveImagePath, RBW.isAbsolute] at h ⊢
    simp [h]

/-- C3 witness: the preference and normalization theorem applied at
concrete inputs — an absolute path is kept as-is and a relative path is
joined to the install root. -/
theorem RBW.source_resolution_witness :
    RBW.resolveImagePath "/app" "/tmp/a.png" = "/tmp/a.png" ∧
    RBW.resolveImagePath "/app" "uploads/a.png" =
      RBW.pathJoin "/app" (RBW.stripLeadingSlash "uploads/a.png") :=
  ⟨(RBW.source_resolution RBW.trivialCvEnv "/app" "v" "k" "/tmp/a.png" none none).2.2.2.2.1
      (by decide),
    (RBW.source_resolution RBW.trivialCvEnv "/app" "v" "k" "uploads/a.png" none none).2.2.2.2.2
      (by decide)⟩

/-- Helper: the length and character facts packed in isUuidLike. -/
theorem RBW.uuid_facts {u : String} (h : RBW.isUuidLike u = true) :
    u.data.length = 36 ∧ ∀ c ∈ u.data, RBW.uuidCharOk c = true := by
  unfold RBW.isUuidLike at h
  simp only [Bool.and_eq_true, beq_iff_eq, List.all_eq_true] at h
  exact ⟨h.1, fun c hc => h.2 c hc⟩

/-- Helper: cancelling a shared prefix, two equal-length list segments
followed by arbitrary suffixes must coincide. -/
theorem RBW.list_mid_inj {α} (pre : List α) {a b s t : List α}
    (hlen : a.length = b.length) (h : pre ++ (a ++ s) = pre ++ (b ++ t)) :
    a = b :=
  (List.append_inj (List.append_cancel_left h) hlen).1

/-- Helper: a uuid-shaped token followed by anything can never spell a
string starting with the letter u, since u is not a hex digit or hyphen. -/
theorem RBW.uuid_not_u_head {u : String} (h : RBW.isUuidLike u = true)
    {s r : List Char} : u.data ++ s ≠ 'u' :: r := by
  intro he
  obtain ⟨hlen, hall⟩ := RBW.uuid_facts h
  cases hd : u.data with
  | nil => rw [hd] at hlen; simp at hlen
  | cons c cs =>
    rw [hd] at he
    simp only [List.cons_append] at he
    injection he with h1 h2
    have hc : RBW.uuidCharOk c = true := hall c (by rw [hd]; exact List.mem_cons_self c cs)
    rw [h1] at hc
    exact absurd hc (by decide)

/-- Helper: no string in the uploads namespace equals a string in the
videos namespace, whatever follows the prefixes. -/
theorem RBW.uploads_ne_videos (x y : List Char) :
    "uploads/".data ++ x ≠ "videos/hosamani-family-video-".data ++ y := by
  intro h
  have h0 : ('u' :: "ploads/".data) ++ x =
      ('v' :: "ideos/hosamani-family-video-".data) ++ y := h
  simp only [List.cons_append] at h0
  injection h0 with h1 h2
  exact absurd h1 (by decide)

/-- C4: every object the server stores carries a key built from a freshly
generated token — uploads slash uuid-plus-extension for uploaded images,
uploads slash url-image-uuid.jpg for URL fetches, videos slash
hosamani-family-video-videoId.mp4 for rendered videos — and, for
uuid-shaped distinct tokens, no two runs can produce the same key, within
one kind or across kinds. -/
theorem RBW.storedKeys_collision_free (k1 k2 : RBW.ObjectKind) (t1 t2 : String)
    (h1 : RBW.isUuidLike t1 = true) (h2 : RBW.isUuidLike t2 = true)
    (hne : t1 ≠ t2) :
    RBW.storedKey k1 t1 ≠ RBW.storedKey k2 t2 := by
  have hl1 := (RBW.uuid_facts h1).1
  have hl2 := (RBW.uuid_facts h2).1
  intro h
  have hd := congrArg String.data h
  cases k1 with
  | uploadedImage e1 =>
    cases k2 with
    | uploadedImage e2 =>
      simp only [RBW.storedKey, RBW.uploadImageKey, RBW.multerFilename,
        String.data_append, List.append_assoc] at hd
      exact hne (String.ext (RBW.list_mid_inj "uploads/".data (hl1.trans hl2.symm) hd))
    | urlImage =>
      simp only [RBW.storedKey, RBW.uploadImageKey, RBW.multerFilename,
        RBW.urlImageKey, RBW.urlFilename, String.data_append, List.append_assoc] at hd
      have hm := List.append_cancel_left hd
      have hr : "url-image-".data ++ (t2.data ++ ".jpg".data) =
          'u' :: ("rl-image-".data ++ (t2.data ++ ".jpg".data)) := rfl
      exact RBW.uuid_not_u_head h1 (hm.trans hr)
    | renderedVideo =>
      simp only [RBW.storedKey, RBW.uploadImageKey, RBW.multerFilename,
        RBW.s3VideoKeyOf, String.data_append, List.append_assoc] at hd
      exact RBW.uploads_ne_videos _ _ hd
  | urlImage =>
    cases k2 with
    | uploadedImage e2 =>
      simp only [RBW.storedKey, RBW.uploadImageKey, RBW.multerFilename,
        RBW.urlImageKey, RBW.urlFilename, String.data_append, List.append_assoc] at hd
      have hm := List.append_cancel_left hd
      have hr : "url-image-".data ++ (t1.data ++ ".jpg".data) =
          'u' :: ("rl-image-".data ++ (t1.data ++ ".jpg".data)) := rfl
      exact RBW.uuid_not_u_head h2 (hm.symm.trans hr)
    | urlImage =>
      simp only [RBW.storedKey, RBW.urlImageKey, RBW.urlFilename,
        String.data_append, List.append_assoc] at hd
      have hm := List.append_cancel_left (List.append_cancel_left hd)
      exact hne (String.ext (List.append_inj hm (hl1.trans hl2.symm)).1)
    | renderedVideo =>
      simp only [RBW.storedKey, RBW.urlImageKey, RBW.urlFilename,
        RBW.s3VideoKeyOf, String.data_append, List.append_assoc] at hd
      exact RBW.uploads_ne_videos _ _ hd
  | renderedVideo =>
    cases k2 with
    | uploadedImage e2 =>
      simp only [RBW.storedKey, RBW.uploadImageKey, RBW.multerFilename,
        RBW.s3VideoKeyOf, String.data_append, List.append_assoc] at hd
      exact RBW.uploads_ne_videos _ _ hd.symm
    | urlImage =>
      simp only [RBW.storedKey, RBW.urlImageKey, RBW.urlFilename,
        RBW.s3VideoKeyOf, String.data_append, List.append_assoc] at hd
      exact RBW.uploads_ne_videos _ _ hd.symm
    | renderedVideo =>
      simp only [RBW.storedKey, RBW.s3VideoKeyOf,
        String.data_append, List.append_assoc] at hd
      exact hne (String.ext
        (RBW.list_mid_inj "videos/hosamani-family-video-".data (hl1.trans hl2.symm) hd))

/-- C4 witness: the collision-freedom theorem applied at two concrete
uuid-shaped tokens and two kinds. -/
theorem RBW.storedKeys_collision_free_witness :
    RBW.storedKey (.uploadedImage ".png") "11111111-2222-3333-4444-555555555555" ≠
      RBW.storedKey .renderedVideo "aaaaaaaa-bbbb-cccc-dddd-eeeeeeeeeeee" :=
  RBW.storedKeys_collision_free (.uploadedImage ".png") .renderedVideo
    "11111111-2222-3333-4444-555555555555" "aaaaaaaa-bbbb-cccc-dddd-eeeeeeeeeeee"
    (by decide) (by decide) (by decide)
